import Mathlib

/-!
Shallow embedding of the cyclora hybrid ride-storage subsystem.

Sources embedded:
* `src/types/ride.ts` — `RideRecord`, `LocationPoint`
* `src/services/rideStorage.ts` — local SQLite adapter (`RideStorageService`)
* `src/services/supabaseRides.ts` — remote Supabase adapter (`SupabaseRidesService`)
* `src/services/backgroundProcessor.ts` — `HybridRideStorageService` coordinator

Modelling conventions:
* ISO-8601 timestamp strings are modelled as `Int` milliseconds since the
  epoch.  `new Date(s).getTime()` and lexicographic comparison of canonical
  ISO strings are both strictly monotone in the instant they denote, so every
  comparison in the source (`new Date(ride.timestamp) > cutoffTime`,
  supabase `.lt('timestamp', cursor)`, `ORDER BY timestamp DESC`) is
  faithfully mirrored by the `Int` comparison.
* JS `number` fields are modelled as `ℚ` (the source never does anything
  float-specific with them; the claims only involve exact values like `0`).
* `null` / `undefined` on an optional field are both modelled as `none`.
  The JS coercions `x || null` and `x || undefined` on a numeric or string
  field send the falsy values `0` and `""` to `none`; this is modelled
  explicitly by `qOrNone` / `strOrNone`.
* The JSON (de)serialisation of `routePoints` in the local adapter is
  modelled as the identity on the parsed content (no claim concerns a
  corrupt blob).
* A SQLite table / supabase table is a `List` of rows; `ORDER BY timestamp
  DESC` is `List.insertionSort` with the "timestamp at least" relation.
* A thrown JS exception is an `Except.error` / a `some` error component;
  adapter-level network and auth failures, which the source code meets as
  thrown exceptions of the underlying library, enter as explicit `Bool` /
  `Except` outcome parameters so that theorems can quantify over them.
-/

namespace Cyclora

/-- 24 hours in milliseconds (`HOURS_24` in `backgroundProcessor.ts`). -/
def HOURS_24 : Int := 24 * 60 * 60 * 1000

/-- `LocationPoint` from `src/types/ride.ts`. -/
structure LocationPoint where
  latitude : ℚ
  longitude : ℚ
  timestamp : Int
  accuracy : Option ℚ := none
  speed : Option ℚ := none
  deriving DecidableEq, Repr

/-- `RideRecord` from `src/types/ride.ts` (the row-bookkeeping `createdAt` /
`updatedAt` fields carry no ride semantics and are not used by any claim, so
they are omitted from the model). -/
structure RideRecord where
  id : String
  timestamp : Int
  distance : ℚ
  duration : ℚ
  averageSpeed : ℚ
  maxSpeed : Option ℚ := none
  routePoints : Option (List LocationPoint) := none
  aiSummary : Option String := none
  deriving DecidableEq, Repr

/-- The ride fields a caller passes to `saveRide`
(`Omit<RideRecord, 'id' | 'createdAt' | 'updatedAt'>`). -/
structure RideDraft where
  timestamp : Int
  distance : ℚ
  duration : ℚ
  averageSpeed : ℚ
  maxSpeed : Option ℚ := none
  routePoints : Option (List LocationPoint) := none
  aiSummary : Option String := none
  deriving DecidableEq, Repr

/-- The JS coercion `x || null` (equally `x || undefined`) on a nullable
numeric field: `0` is falsy and becomes `none`. -/
def qOrNone : Option ℚ → Option ℚ
  | some v => if v = 0 then none else some v
  | none => none

/-- The JS coercion `x || null` (equally `x || undefined`) on a nullable
string field: `""` is falsy and becomes `none`. -/
def strOrNone : Option String → Option String
  | some s => if s = "" then none else some s
  | none => none

/-- Error taxonomy for thrown exceptions.  The source throws plain `Error`
objects; the constructors record which throw site is meant. -/
inductive Err where
  /-- underlying medium / network call failed -/
  | storageFault : Err
  /-- no authenticated supabase user (`'User not authenticated'`) -/
  | unauthenticated : Err
  /-- `forceFullMigration`: `'Migration already in progress'` -/
  | migrationInProgress : Err
  /-- coordinator `updateRideAISummary`: `'Failed to update AI summary'` -/
  | updateFailed : Err
  deriving DecidableEq, Repr

/-! ## Local adapter — `src/services/rideStorage.ts` -/

/-- A row of the local SQLite `rides` table (`RideRow` in
`rideStorage.ts`); the serialized `routePoints` JSON blob is modelled by its
parsed content. -/
structure RideRow where
  id : String
  timestamp : Int
  distance : ℚ
  duration : ℚ
  averageSpeed : ℚ
  maxSpeed : Option ℚ
  routePoints : Option (List LocationPoint)
  aiSummary : Option String
  deriving DecidableEq, Repr

/-- The row `saveRide` INSERTs for a fresh id (`rideStorage.ts` lines 75-106):
`maxSpeed: rideData.maxSpeed || null`, `aiSummary: rideData.aiSummary || null`,
route points serialized (here: kept as content; a JS array, even empty, is
truthy, so the ternary `rideData.routePoints ? JSON.stringify(...) : null`
is the identity on the option). -/
def localSaveRow (id : String) (d : RideDraft) : RideRow :=
  { id := id
    timestamp := d.timestamp
    distance := d.distance
    duration := d.duration
    averageSpeed := d.averageSpeed
    maxSpeed := qOrNone d.maxSpeed
    routePoints := d.routePoints
    aiSummary := strOrNone d.aiSummary }

/-- The per-row mapping of `getAllRides` / `getRide`
(`rideStorage.ts` lines 117-142): `maxSpeed: row.maxSpeed || undefined`,
`aiSummary: row.aiSummary || undefined`. -/
def rowToRide (row : RideRow) : RideRecord :=
  { id := row.id
    timestamp := row.timestamp
    distance := row.distance
    duration := row.duration
    averageSpeed := row.averageSpeed
    maxSpeed := qOrNone row.maxSpeed
    routePoints := row.routePoints
    aiSummary := strOrNone row.aiSummary }

/-- `ORDER BY timestamp DESC` on the local table. -/
def sortRowsDesc (rows : List RideRow) : List RideRow :=
  List.insertionSort (fun a b => b.timestamp ≤ a.timestamp) rows

/-- `getAllRides` (`rideStorage.ts` lines 108-147): `SELECT * FROM rides
ORDER BY timestamp DESC`, each row mapped by `rowToRide`. -/
def getAllRides (rows : List RideRow) : List RideRecord :=
  (sortRowsDesc rows).map rowToRide

/-- Local `updateRideAISummary` (`rideStorage.ts` lines 190-203):
`UPDATE rides SET aiSummary = ?, updatedAt = ? WHERE id = ?`.
A SQL UPDATE matching zero rows succeeds without error, so the result is
`Except.ok` for every id, present or not. -/
def localUpdateRideAISummary (rows : List RideRow) (id aiSummary : String) :
    Except Err (List RideRow) :=
  Except.ok (rows.map fun row =>
    if row.id = id then { row with aiSummary := some aiSummary } else row)

/-- Local `deleteRide` (`rideStorage.ts` lines 205-214):
`DELETE FROM rides WHERE id = ?`; deleting an absent id matches zero rows
and succeeds. -/
def localDeleteRide (rows : List RideRow) (id : String) : List RideRow :=
  rows.filter fun row => !(row.id == id)

/-! ## Tier boundary — coordinator `getRecentRides` / `getOldRides`
(`backgroundProcessor.ts` lines 361-380) -/

/-- `getRecentRides`: local rides with
`new Date(ride.timestamp) > cutoffTime`, `cutoffTime = now - HOURS_24`. -/
def getRecentRides (now : Int) (rows : List RideRow) : List RideRecord :=
  (getAllRides rows).filter fun ride => decide (ride.timestamp > now - HOURS_24)

/-- `getOldRides`: local rides with
`new Date(ride.timestamp) <= cutoffTime`. -/
def getOldRides (now : Int) (rows : List RideRow) : List RideRecord :=
  (getAllRides rows).filter fun ride => decide (ride.timestamp ≤ now - HOURS_24)

/-! ## Remote adapter — `src/services/supabaseRides.ts` -/

/-- A row of the supabase `rides` table (`SupabaseRideRow`); the
row-bookkeeping `created_at` / `updated_at` columns are not used by any
claim and are omitted. -/
structure SupabaseRideRow where
  id : String
  user_id : String
  timestamp : Int
  distance : ℚ
  duration : ℚ
  average_speed : ℚ
  max_speed : Option ℚ
  route_points : Option (List LocationPoint)
  ai_summary : Option String
  deriving DecidableEq, Repr

/-- The insert payload `uploadRide` / `uploadRides` build for one ride
(`supabaseRides.ts` lines 37-47 and 69-79): `max_speed: ride.maxSpeed || null`,
`route_points: ride.routePoints || null` (identity on the option — an array
is truthy), `ai_summary: ride.aiSummary || null`. -/
def rideToSupabaseRow (uid : String) (r : RideRecord) : SupabaseRideRow :=
  { id := r.id
    user_id := uid
    timestamp := r.timestamp
    distance := r.distance
    duration := r.duration
    average_speed := r.averageSpeed
    max_speed := qOrNone r.maxSpeed
    route_points := r.routePoints
    ai_summary := strOrNone r.aiSummary }

/-- `mapSupabaseRowToRide` (`supabaseRides.ts` lines 279-292):
`maxSpeed: row.max_speed || undefined`, `aiSummary: row.ai_summary || undefined`. -/
def mapSupabaseRowToRide (row : SupabaseRideRow) : RideRecord :=
  { id := row.id
    timestamp := row.timestamp
    distance := row.distance
    duration := row.duration
    averageSpeed := row.average_speed
    maxSpeed := qOrNone row.max_speed
    routePoints := row.route_points
    aiSummary := strOrNone row.ai_summary }

/-- `uploadRides` (`supabaseRides.ts` lines 63-90): batch INSERT of the
mapped rows, tagged with the authenticated user's id.  `fails` is the
outcome of the network/auth round trip: when the underlying call errors
(no user, network fault, insert error) the adapter throws and nothing is
committed. -/
def uploadRides (fails : Bool) (uid : String) (store : List SupabaseRideRow)
    (rides : List RideRecord) : Except Err (List SupabaseRideRow) :=
  if fails then Except.error Err.storageFault
  else Except.ok (store ++ rides.map (rideToSupabaseRow uid))

/-- Remote `deleteRide` (`supabaseRides.ts` lines 166-181): DELETE scoped by
`.eq('id', rideId).eq('user_id', user.id)`; an id matching nothing deletes
zero rows and succeeds.  `fails` is the network/auth outcome. -/
def remoteDeleteRide (fails : Bool) (uid : String) (store : List SupabaseRideRow)
    (id : String) : Except Err (List SupabaseRideRow) :=
  if fails then Except.error Err.storageFault
  else Except.ok (store.filter fun row => !(row.id == id && row.user_id == uid))

/-- Remote `updateRideAISummary` (`supabaseRides.ts` lines 206-221): UPDATE
scoped by id and user id; zero matched rows still succeed.  `fails` is the
network/auth outcome. -/
def remoteUpdateRideAISummary (fails : Bool) (uid : String)
    (store : List SupabaseRideRow) (id aiSummary : String) :
    Except Err (List SupabaseRideRow) :=
  if fails then Except.error Err.storageFault
  else Except.ok (store.map fun row =>
    if row.id = id ∧ row.user_id = uid then { row with ai_summary := some aiSummary }
    else row)

/-- Aggregate result of remote `getRideStats` (`supabaseRides.ts`
lines 245-274). -/
structure RideStats where
  totalRides : Nat
  totalDistance : ℚ
  totalDuration : ℚ
  deriving DecidableEq, Repr

/-- `ORDER BY timestamp DESC` on the supabase table. -/
def sortSupabaseRowsDesc (rows : List SupabaseRideRow) : List SupabaseRideRow :=
  List.insertionSort (fun a b => b.timestamp ≤ a.timestamp) rows

/-- The row set the paginated query matches (`supabaseRides.ts` lines
104-115): the caller's rows, ordered by timestamp descending, and — when a
cursor is supplied — restricted by `.lt('timestamp', cursor)`.  The
`count: 'exact'` total is the length of this set (filters apply to the
count, the `limit` does not). -/
def matchedRows (uid : String) (store : List SupabaseRideRow)
    (cursor : Option Int) : List SupabaseRideRow :=
  let ordered := sortSupabaseRowsDesc (store.filter fun row => row.user_id == uid)
  match cursor with
  | some c => ordered.filter fun row => decide (row.timestamp < c)
  | none => ordered

/-- Result shape of `getPaginatedRides` (`PaginatedRides` in
`supabaseRides.ts`). -/
structure PaginatedRides where
  rides : List RideRecord
  hasMore : Bool
  nextCursor : Option Int
  totalCount : Nat
  deriving DecidableEq, Repr

/-- `getPaginatedRides` (`supabaseRides.ts` lines 95-137): fetch
`pageSize + 1` matching rows, return the first `pageSize`, `hasMore` iff the
extra row existed, `nextCursor` the timestamp of the last returned row when
there are more. -/
def getPaginatedRides (uid : String) (store : List SupabaseRideRow)
    (cursor : Option Int) (pageSize : Nat) : PaginatedRides :=
  let matched := matchedRows uid store cursor
  let data := matched.take (pageSize + 1)
  let rides := data.take pageSize
  let hasMore : Bool := decide (pageSize < data.length)
  let nextCursor : Option Int :=
    if hasMore && decide (0 < rides.length) then
      (rides.getLast?).map (fun row => row.timestamp)
    else none
  { rides := rides.map mapSupabaseRowToRide
    hasMore := hasMore
    nextCursor := nextCursor
    totalCount := matched.length }

/-! ## Hybrid coordinator — `HybridRideStorageService` in
`src/services/backgroundProcessor.ts` -/

/-- The state the coordinator operates on: the local SQLite table, the
supabase table, and the in-memory `isMigrating` flag. -/
structure HState where
  localRows : List RideRow
  remote : List SupabaseRideRow
  migrating : Bool
  deriving DecidableEq, Repr

/-- `migrateOldRides` (`backgroundProcessor.ts` lines 478-511).  Returns the
final state paired with the thrown exception, if any; the body's `catch`
logs and swallows every error and the `finally` clears the flag, so the
error component is always `none`.  `uploadFails` is the outcome of the
`supabaseRidesService.uploadRides` call. -/
def migrateOldRides (uploadFails : Bool) (uid : String) (now : Int)
    (st : HState) : HState × Option Err :=
  if st.migrating then (st, none)
  else
    let st1 := { st with migrating := true }
    let oldRides := getOldRides now st1.localRows
    if oldRides.isEmpty then ({ st1 with migrating := false }, none)
    else
      match uploadRides uploadFails uid st1.remote oldRides with
      | Except.error _ =>
        -- `catch`: console.error, no rethrow; `finally`: clear the flag
        ({ st1 with migrating := false }, none)
      | Except.ok remote2 =>
        -- delete each migrated record from local storage, one id at a time
        let rows2 := oldRides.foldl (fun rows r => localDeleteRide rows r.id)
          st1.localRows
        ({ st1 with localRows := rows2, remote := remote2, migrating := false },
          none)

/-- `forceFullMigration` (`backgroundProcessor.ts` lines 516-554): rejects
with `MigrationInProgress` when re-entered, uploads *all* local rides, then
deletes only those whose timestamp is at or past the 24h cutoff computed
after the upload.  Upload failures are rethrown (the `finally` still clears
the flag). -/
def forceFullMigration (uploadFails : Bool) (uid : String) (now : Int)
    (st : HState) : HState × Option Err :=
  if st.migrating then (st, some Err.migrationInProgress)
  else
    let st1 := { st with migrating := true }
    let allLocalRides := getAllRides st1.localRows
    if allLocalRides.isEmpty then ({ st1 with migrating := false }, none)
    else
      match uploadRides uploadFails uid st1.remote allLocalRides with
      | Except.error e => ({ st1 with migrating := false }, some e)
      | Except.ok remote2 =>
        let oldRides := allLocalRides.filter fun ride =>
          decide (ride.timestamp ≤ now - HOURS_24)
        let rows2 := oldRides.foldl (fun rows r => localDeleteRide rows r.id)
          st1.localRows
        ({ st1 with localRows := rows2, remote := remote2, migrating := false },
          none)

/-- Coordinator `deleteRide` (`backgroundProcessor.ts` lines 437-453): the
local attempt is wrapped in its own try/catch, then the remote attempt runs
unconditionally in a second try/catch; neither error propagates.
`localFails` / `remoteFails` are the outcomes of the two adapter calls. -/
def deleteRide (localFails remoteFails : Bool) (uid : String) (st : HState)
    (id : String) : Except Err HState :=
  let rows1 :=
    if localFails then st.localRows  -- adapter threw; catch logs, keeps going
    else localDeleteRide st.localRows id
  let remote1 :=
    match remoteDeleteRide remoteFails uid st.remote id with
    | Except.ok r => r
    | Except.error _ => st.remote  -- catch: 'Ride not found in remote storage'
  Except.ok { st with localRows := rows1, remote := remote1 }

/-- Coordinator `updateRideAISummary` (`backgroundProcessor.ts` lines
458-473): try the local adapter and return on success; only if it throws,
try the remote adapter, wrapping its error as `updateFailed`.
`remoteFails` is the outcome of the remote call's network/auth round trip. -/
def updateRideAISummary (remoteFails : Bool) (uid : String) (st : HState)
    (id aiSummary : String) : Except Err HState :=
  match localUpdateRideAISummary st.localRows id aiSummary with
  | Except.ok rows1 => Except.ok { st with localRows := rows1 }
  | Except.error _ =>
    match remoteUpdateRideAISummary remoteFails uid st.remote id aiSummary with
    | Except.ok remote1 => Except.ok { st with remote := remote1 }
    | Except.error _ => Except.error Err.updateFailed

/-- Result of `checkDataIntegrity`. -/
structure IntegrityReport where
  localCount : Nat
  remoteCount : Nat
  oldLocalRidesCount : Nat
  deriving DecidableEq, Repr

/-- `checkDataIntegrity` (`backgroundProcessor.ts` lines 566-588):
`remoteCount` starts at 0 and is only overwritten when the remote stats
call succeeds; a failed call is caught and logged.  `remoteStats` is the
outcome of the `supabaseRidesService.getRideStats()` call. -/
def checkDataIntegrity (remoteStats : Except Err RideStats) (now : Int)
    (st : HState) : Except Err IntegrityReport :=
  let remoteCount :=
    match remoteStats with
    | Except.ok stats => stats.totalRides
    | Except.error _ => 0  -- catch: console.warn, keep 0
  Except.ok
    { localCount := (getAllRides st.localRows).length
      remoteCount := remoteCount
      oldLocalRidesCount := (getOldRides now st.localRows).length }

/-! ## Concrete sample data used by counterexamples and witnesses -/

/-- A local row whose ride is exactly 24h old when `now = HOURS_24`. -/
def row_boundary : RideRow :=
  { id := "a", timestamp := 0, distance := 1, duration := 2, averageSpeed := 3
    maxSpeed := none, routePoints := none, aiSummary := none }

/-- A local row whose ride is 1h old when `now = 30 * 3600000`. -/
def row_fresh : RideRow :=
  { id := "b", timestamp := 29 * 3600000, distance := 5, duration := 6
    averageSpeed := 7, maxSpeed := none, routePoints := none, aiSummary := none }

/-- A remote row (user `"u"`) with no AI summary. -/
def srow_r1 : SupabaseRideRow :=
  { id := "r1", user_id := "u", timestamp := 0, distance := 1, duration := 2
    average_speed := 3, max_speed := none, route_points := none
    ai_summary := none }

/-- A local row carrying the falsy field values `maxSpeed = 0` and
`aiSummary = ""`. -/
def row_falsy : RideRow :=
  { id := "f", timestamp := 10, distance := 1, duration := 2, averageSpeed := 3
    maxSpeed := some 0, routePoints := none, aiSummary := some "" }

/-- A supabase row carrying the falsy field values `max_speed = 0` and
`ai_summary = ""`. -/
def srow_falsy : SupabaseRideRow :=
  { id := "g", user_id := "u", timestamp := 10, distance := 1, duration := 2
    average_speed := 3, max_speed := some 0, route_points := none
    ai_summary := some "" }

/-- A ride draft carrying the falsy field values `maxSpeed = 0` and
`aiSummary = ""`. -/
def draft_falsy : RideDraft :=
  { timestamp := 10, distance := 1, duration := 2, averageSpeed := 3
    maxSpeed := some 0, routePoints := none, aiSummary := some "" }

/-- The `i`-th of 25 remote rows with distinct descending timestamps. -/
def mkSrow (i : Nat) : SupabaseRideRow :=
  { id := toString i, user_id := "u", timestamp := (100 : Int) - i
    distance := 0, duration := 0, average_speed := 0, max_speed := none
    route_points := none, ai_summary := none }

/-- 25 remote rows with distinct descending timestamps (spec §8.4). -/
def store25 : List SupabaseRideRow := (List.range 25).map mkSrow

/-- First page of the §8.4 pagination scenario. -/
def page1 : PaginatedRides := getPaginatedRides "u" store25 none 10

/-- Second page, requested with the first page's `nextCursor`. -/
def page2 : PaginatedRides := getPaginatedRides "u" store25 page1.nextCursor 10

/-- Third page, requested with the second page's `nextCursor`. -/
def page3 : PaginatedRides := getPaginatedRides "u" store25 page2.nextCursor 10

end Cyclora

namespace Cyclora

/-! ## Helper lemmas -/

/-- Deleting a batch of records id-by-id (the coordinator's migration delete
loop) filters out exactly the rows sharing an id with some record of the
batch. -/
theorem foldl_localDeleteRide (old : List RideRecord) (rows : List RideRow) :
    old.foldl (fun rs r => localDeleteRide rs r.id) rows =
      rows.filter fun row => old.all fun r => !(row.id == r.id) := by
  induction old generalizing rows with
  | nil => simp
  | cons r os ih =>
    rw [List.foldl_cons, ih]
    simp only [localDeleteRide, List.filter_filter]
    apply List.filter_congr
    intro row hrow
    simp [Bool.and_comm]

/-- Membership in the local adapter's `getAllRides` result. -/
theorem mem_getAllRides {rows : List RideRow} {r : RideRecord} :
    r ∈ getAllRides rows ↔ ∃ row ∈ rows, rowToRide row = r := by
  simp only [getAllRides, sortRowsDesc, List.mem_map, List.mem_insertionSort]

/-- `getAllRides` is empty only for the empty table. -/
theorem getAllRides_isEmpty {rows : List RideRow} (h : rows ≠ []) :
    (getAllRides rows).isEmpty = false := by
  have hlen : (getAllRides rows).length = rows.length := by
    simp [getAllRides, sortRowsDesc, List.length_insertionSort]
  rcases rows with _ | ⟨row, rest⟩
  · exact absurd rfl h
  · rw [List.isEmpty_eq_false_iff_exists_mem]
    have : 0 < (getAllRides (row :: rest)).length := by
      rw [hlen]
      simp
    exact List.exists_mem_of_length_pos this

/-! ## Claim theorems -/

/-- **C1** (migration safety): from any non-migrating state, if the
`Remote.insertMany` upload throws during a `migrateOldRides` pass, the pass
deletes nothing from the local store (the whole state is preserved),
`migrateOldRides` itself throws nothing, and the `migrating` flag ends
cleared. -/
theorem migrateOldRides_upload_failure_safe (uid : String) (now : Int)
    (st : HState) (h : st.migrating = false) :
    migrateOldRides true uid now st = ({ st with migrating := false }, none) := by
  simp [migrateOldRides, h, uploadRides]

/-- Witness for C1 at a concrete state containing one old ride. -/
theorem migrateOldRides_upload_failure_safe_witness :
    (HState.mk [row_boundary] [] false).migrating = false ∧
      migrateOldRides true "u" HOURS_24 (HState.mk [row_boundary] [] false) =
        ({ HState.mk [row_boundary] [] false with migrating := false }, none) :=
  ⟨rfl, migrateOldRides_upload_failure_safe "u" HOURS_24
    (HState.mk [row_boundary] [] false) rfl⟩

/-- **C5** (at most one migration pass): whenever the `migrating` flag is
set, `migrateOldRides` returns immediately as a no-op — state untouched, no
upload, no delete, nothing thrown — and `forceFullMigration` throws
`MigrationInProgress` immediately, also touching nothing. -/
theorem migration_mutual_exclusion (uploadFails : Bool) (uid : String)
    (now : Int) (st : HState) (h : st.migrating = true) :
    migrateOldRides uploadFails uid now st = (st, none) ∧
      forceFullMigration uploadFails uid now st =
        (st, some Err.migrationInProgress) := by
  constructor
  · simp [migrateOldRides, h]
  · simp [forceFullMigration, h]

/-- Witness for C5 at a concrete mid-migration state. -/
theorem migration_mutual_exclusion_witness :
    (HState.mk [row_boundary] [] true).migrating = true ∧
      migrateOldRides false "u" HOURS_24 (HState.mk [row_boundary] [] true) =
        (HState.mk [row_boundary] [] true, none) ∧
      forceFullMigration false "u" HOURS_24 (HState.mk [row_boundary] [] true) =
        (HState.mk [row_boundary] [] true, some Err.migrationInProgress) :=
  ⟨rfl,
    (migration_mutual_exclusion false "u" HOURS_24
      (HState.mk [row_boundary] [] true) rfl).1,
    (migration_mutual_exclusion false "u" HOURS_24
      (HState.mk [row_boundary] [] true) rfl).2⟩

/-- **C2, counterexample**: a ride whose timestamp is exactly 24h0s old
(`now - timestamp = HOURS_24`) is *not* in `getRecentRides` — it is in
`getOldRides` — refuting "the ride is in getRecent() iff
now - timestamp ≤ 24h" at this input. -/
theorem tier_boundary_inclusive_counterexample :
    ¬ ((rowToRide row_boundary ∈ getRecentRides HOURS_24 [row_boundary]) ↔
        HOURS_24 - (rowToRide row_boundary).timestamp ≤ HOURS_24) ∧
      rowToRide row_boundary ∈ getOldRides HOURS_24 [row_boundary] := by
  constructor
  · decide
  · decide

/-- **C2, amended**: the boundary is *exclusive* on the local side: a local
ride is in `getRecentRides` iff `now - timestamp < 24h` (so a ride exactly
24h0s old is old/archive, not recent), it is in `getOldRides` iff
`now - timestamp ≥ 24h`, and the two sets partition the local rides. -/
theorem tier_boundary_strict (now : Int) (rows : List RideRow)
    (r : RideRecord) :
    (r ∈ getRecentRides now rows ↔
        r ∈ getAllRides rows ∧ now - r.timestamp < HOURS_24) ∧
      (r ∈ getOldRides now rows ↔
        r ∈ getAllRides rows ∧ HOURS_24 ≤ now - r.timestamp) ∧
      ¬ (r ∈ getRecentRides now rows ∧ r ∈ getOldRides now rows) ∧
      (r ∈ getAllRides rows →
        r ∈ getRecentRides now rows ∨ r ∈ getOldRides now rows) := by
  simp only [getRecentRides, getOldRides, List.mem_filter, decide_eq_true_eq]
  refine ⟨⟨fun ⟨hm, hc⟩ => ⟨hm, by omega⟩, fun ⟨hm, hc⟩ => ⟨hm, by omega⟩⟩,
    ⟨fun ⟨hm, hc⟩ => ⟨hm, by omega⟩, fun ⟨hm, hc⟩ => ⟨hm, by omega⟩⟩, ?_, ?_⟩
  · rintro ⟨⟨_, h1⟩, ⟨_, h2⟩⟩
    omega
  · intro hm
    by_cases hc : r.timestamp > now - HOURS_24
    · exact Or.inl ⟨hm, hc⟩
    · exact Or.inr ⟨hm, by omega⟩

/-- Witness for the amended C2 at the exactly-24h-old concrete ride. -/
theorem tier_boundary_strict_witness :
    rowToRide row_boundary ∈ getOldRides HOURS_24 [row_boundary] ↔
      rowToRide row_boundary ∈ getAllRides [row_boundary] ∧
        HOURS_24 ≤ HOURS_24 - (rowToRide row_boundary).timestamp :=
  (tier_boundary_strict HOURS_24 [row_boundary] (rowToRide row_boundary)).2.1

/-- **C4** (code bug, evaluated): the local adapter's `updateRideAISummary`
is a plain SQL UPDATE; for every id absent from the local table it matches
zero rows and returns plain success with the table unchanged — it never
signals `NotFound`, contradicting the §4.1 contract and leaving the
coordinator's "not found locally, trying remote" fallback branch
unreachable. -/
theorem localUpdateRideAISummary_absent_id_noop (rows : List RideRow)
    (id aiSummary : String) (h : ∀ row ∈ rows, row.id ≠ id) :
    localUpdateRideAISummary rows id aiSummary = Except.ok rows := by
  simp only [localUpdateRideAISummary, Except.ok.injEq]
  conv_rhs => rw [← List.map_id rows]
  apply List.map_congr_left
  intro row hrow
  simp [h row hrow]

/-- Witness for C4 on an empty local table. -/
theorem localUpdateRideAISummary_absent_id_noop_witness :
    (∀ row ∈ ([] : List RideRow), row.id ≠ "r1") ∧
      localUpdateRideAISummary [] "r1" "s" = Except.ok [] :=
  ⟨by simp, localUpdateRideAISummary_absent_id_noop [] "r1" "s" (by simp)⟩

/-- **C3** (code bug, evaluated at the failing input): for a ride that lives
only in Remote (`srow_r1`, no summary, absent from Local), the
coordinator's `updateRideAISummary` returns success with the whole state
unchanged: the local UPDATE "succeeds" on zero rows, the coordinator
returns early, and the remote summary is never written — the claimed
Local→Remote fallback does not happen. -/
theorem updateRideAISummary_remote_only_not_updated :
    updateRideAISummary false "u" (HState.mk [] [srow_r1] false) "r1"
        "great ride" = Except.ok (HState.mk [] [srow_r1] false) ∧
      srow_r1.ai_summary ≠ some "great ride" := by
  constructor
  · rfl
  · decide

/-- **C8** (idempotent end-to-end delete): the coordinator's `deleteRide`
always returns success — the local attempt's outcome (even an adapter
throw) never prevents the remote attempt, whose effect on the remote table
is the same for every local outcome — and when the id is present in
neither tier and neither adapter faults, the call is a pure no-op success. -/
theorem deleteRide_idempotent (localFails remoteFails : Bool) (uid : String)
    (st : HState) (id : String)
    (hl : ∀ row ∈ st.localRows, row.id ≠ id)
    (hr : ∀ row ∈ st.remote, row.id ≠ id) :
    deleteRide localFails remoteFails uid st id =
      Except.ok { st with
        localRows :=
          if localFails then st.localRows else localDeleteRide st.localRows id
        remote :=
          if remoteFails then st.remote
          else st.remote.filter fun row => !(row.id == id && row.user_id == uid) } ∧
      deleteRide false false uid st id = Except.ok st := by
  have h1 : localDeleteRide st.localRows id = st.localRows := by
    apply List.filter_eq_self.mpr
    intro row hrow
    simpa using hl row hrow
  have h2 :
      (st.remote.filter fun row => !(row.id == id && row.user_id == uid)) =
        st.remote := by
    apply List.filter_eq_self.mpr
    intro row hrow
    have : (row.id == id) = false := by simpa using hr row hrow
    simp [this]
  constructor
  · cases localFails <;> cases remoteFails <;>
      simp [deleteRide, remoteDeleteRide]
  · have e : deleteRide false false uid st id =
        Except.ok { st with
          localRows := localDeleteRide st.localRows id
          remote :=
            st.remote.filter fun row => !(row.id == id && row.user_id == uid) } :=
      rfl
    rw [e, h1, h2]

/-- Witness for C8: deleting an id present in neither tier. -/
theorem deleteRide_idempotent_witness :
    (∀ row ∈ (HState.mk [row_boundary] [srow_r1] false).localRows,
        row.id ≠ "zzz") ∧
      (∀ row ∈ (HState.mk [row_boundary] [srow_r1] false).remote,
        row.id ≠ "zzz") ∧
      deleteRide false false "u" (HState.mk [row_boundary] [srow_r1] false)
          "zzz" =
        Except.ok (HState.mk [row_boundary] [srow_r1] false) :=
  ⟨by decide, by decide,
    (deleteRide_idempotent false false "u"
      (HState.mk [row_boundary] [srow_r1] false) "zzz" (by decide)
      (by decide)).2⟩

/-- **C9** (integrity check never throws): whatever the remote stats call
does, `checkDataIntegrity` returns a report rather than propagating; on any
remote failure the `remoteCount` field degrades to `0` while the local
counts are still reported. -/
theorem checkDataIntegrity_never_throws (now : Int) (st : HState) :
    (∀ remoteStats, (checkDataIntegrity remoteStats now st).isOk = true) ∧
      (∀ e, checkDataIntegrity (Except.error e) now st =
        Except.ok
          { localCount := (getAllRides st.localRows).length
            remoteCount := 0
            oldLocalRidesCount := (getOldRides now st.localRows).length }) := by
  constructor
  · intro remoteStats
    cases remoteStats <;> rfl
  · intro e
    rfl

/-- **C10** (falsy-field coercion on reads): a stored `maxSpeed` of `0` or
`aiSummary` of `""` comes back as absent through the local save-then-read
round trip, through the local row mapping alone, and through the remote
`mapSupabaseRowToRide` — the round trip does not preserve these values. -/
theorem falsy_field_coercion (d : RideDraft) (id : String) (row : RideRow)
    (srow : SupabaseRideRow) :
    (d.maxSpeed = some 0 → (rowToRide (localSaveRow id d)).maxSpeed = none) ∧
      (d.aiSummary = some "" →
        (rowToRide (localSaveRow id d)).aiSummary = none) ∧
      (row.maxSpeed = some 0 → (rowToRide row).maxSpeed = none) ∧
      (row.aiSummary = some "" → (rowToRide row).aiSummary = none) ∧
      (srow.max_speed = some 0 → (mapSupabaseRowToRide srow).maxSpeed = none) ∧
      (srow.ai_summary = some "" →
        (mapSupabaseRowToRide srow).aiSummary = none) := by
  refine ⟨?_, ?_, ?_, ?_, ?_, ?_⟩ <;> intro h <;>
    simp [rowToRide, localSaveRow, mapSupabaseRowToRide, qOrNone, strOrNone, h]

/-- **C6, counterexample**: with one local ride whose timestamp is exactly
24h0s old — hence still inside the spec's `≤ 24h` recency window — a
successful `forceFullMigration` deletes it from Local, refuting "rides
still within the recency window remain in Local" at this input. -/
theorem forceFullMigration_boundary_counterexample :
    (forceFullMigration false "u" HOURS_24
        (HState.mk [row_boundary] [] false)).1.localRows = [] ∧
      HOURS_24 - row_boundary.timestamp ≤ HOURS_24 ∧
      (forceFullMigration false "u" HOURS_24
        (HState.mk [row_boundary] [] false)).2 = none := by
  refine ⟨by decide, by decide, by decide⟩

/-- **C6, amended**: from a non-migrating state with a non-empty local
table (ids unique, as the SQLite primary key guarantees),
`forceFullMigration` succeeds, uploads every local ride to Remote, and then
deletes from Local exactly the uploaded rides aged `≥ 24h` at deletion
time; rides aged `< 24h` remain in Local even though they were uploaded.
(`now` is the clock at the post-upload cutoff computation.) -/
theorem forceFullMigration_postcondition (uid : String) (now : Int)
    (st : HState) (hmig : st.migrating = false) (hne : st.localRows ≠ [])
    (hnodup : (st.localRows.map RideRow.id).Nodup) :
    forceFullMigration false uid now st =
      ({ st with
          localRows := st.localRows.filter fun row =>
            decide (now - row.timestamp < HOURS_24)
          remote := st.remote ++
            (getAllRides st.localRows).map (rideToSupabaseRow uid)
          migrating := false }, none) := by
  have hEmpty : (getAllRides st.localRows).isEmpty = false :=
    getAllRides_isEmpty hne
  simp only [forceFullMigration, hmig, Bool.false_eq_true, if_false, hEmpty,
    uploadRides, foldl_localDeleteRide]
  have hfilters :
      (st.localRows.filter fun row =>
          ((getAllRides st.localRows).filter fun ride =>
            decide (ride.timestamp ≤ now - HOURS_24)).all
            fun r => !(row.id == r.id)) =
        st.localRows.filter fun row =>
          decide (now - row.timestamp < HOURS_24) := by
    apply List.filter_congr
    intro row hrow
    by_cases hts : row.timestamp ≤ now - HOURS_24
    · have hmem : rowToRide row ∈
          (getAllRides st.localRows).filter fun ride =>
            decide (ride.timestamp ≤ now - HOURS_24) := by
        simp only [List.mem_filter, decide_eq_true_eq]
        exact ⟨mem_getAllRides.mpr ⟨row, hrow, rfl⟩, hts⟩
      have hL : (((getAllRides st.localRows).filter fun ride =>
            decide (ride.timestamp ≤ now - HOURS_24)).all
            fun r => !(row.id == r.id)) = false := by
        rw [List.all_eq_false]
        exact ⟨rowToRide row, hmem, by simp [rowToRide]⟩
      have hR : decide (now - row.timestamp < HOURS_24) = false := by
        rw [decide_eq_false_iff_not]
        omega
      rw [hL, hR]
    · have hL : (((getAllRides st.localRows).filter fun ride =>
            decide (ride.timestamp ≤ now - HOURS_24)).all
            fun r => !(row.id == r.id)) = true := by
        rw [List.all_eq_true]
        intro r hr
        simp only [List.mem_filter, decide_eq_true_eq] at hr
        obtain ⟨hrAll, hrts⟩ := hr
        obtain ⟨row', hrow', hmapeq⟩ := mem_getAllRides.mp hrAll
        rw [Bool.not_eq_eq_eq_not, Bool.not_true, beq_eq_false_iff_ne]
        intro heq
        have hid : row'.id = row.id := by
          rw [← hmapeq] at heq
          exact heq.symm
        have hrr : row' = row :=
          List.inj_on_of_nodup_map hnodup hrow' hrow hid
        rw [← hmapeq, hrr] at hrts
        exact hts hrts
      have hR : decide (now - row.timestamp < HOURS_24) = true :=
        decide_eq_true (by omega)
      rw [hL, hR]
  rw [hfilters]

/-- Witness for the amended C6 at the spec §8.8 scenario: one ride 30h old,
one ride 1h old; the 30h-old ride is deleted locally, the 1h-old ride
stays, and both were uploaded. -/
theorem forceFullMigration_postcondition_witness :
    (HState.mk [row_boundary, row_fresh] [] false).migrating = false ∧
      (HState.mk [row_boundary, row_fresh] [] false).localRows ≠ [] ∧
      ((HState.mk [row_boundary, row_fresh] [] false).localRows.map
        RideRow.id).Nodup ∧
      forceFullMigration false "u" (30 * 3600000)
          (HState.mk [row_boundary, row_fresh] [] false) =
        ({ HState.mk [row_boundary, row_fresh] [] false with
            localRows :=
              (HState.mk [row_boundary, row_fresh] [] false).localRows.filter
                fun row =>
                  decide ((30 * 3600000 : Int) - row.timestamp < HOURS_24)
            remote :=
              (HState.mk [row_boundary, row_fresh] [] false).remote ++
                (getAllRides (HState.mk [row_boundary, row_fresh]
                  [] false).localRows).map (rideToSupabaseRow "u")
            migrating := false }, none) :=
  ⟨rfl, by decide, by decide,
    forceFullMigration_postcondition "u" (30 * 3600000)
      (HState.mk [row_boundary, row_fresh] [] false) rfl (by decide)
      (by decide)⟩

/-- **C7** (pagination cursor correctness): with a cursor, only rows with a
strictly smaller timestamp are returned; `hasMore` holds iff strictly more
than `pageSize` rows matched; when there are more rows, `nextCursor` is the
timestamp of the last row actually returned, and it is `null` when there
are none; and the concrete 25-row scenario pages as 10, 10, 5 with no row
repeated or skipped and the third page's `hasMore` false. -/
theorem getPaginatedRides_cursor_correct (uid : String)
    (store : List SupabaseRideRow) (c : Int) (pageSize : Nat)
    (hps : 1 ≤ pageSize) :
    (∀ r ∈ (getPaginatedRides uid store (some c) pageSize).rides,
        r.timestamp < c) ∧
      ((getPaginatedRides uid store (some c) pageSize).hasMore = true ↔
        pageSize < (matchedRows uid store (some c)).length) ∧
      ((getPaginatedRides uid store (some c) pageSize).hasMore = true →
        ∃ last,
          (getPaginatedRides uid store (some c) pageSize).rides.getLast? =
              some last ∧
            (getPaginatedRides uid store (some c) pageSize).nextCursor =
              some last.timestamp) ∧
      ((getPaginatedRides uid store (some c) pageSize).hasMore = false →
        (getPaginatedRides uid store (some c) pageSize).nextCursor = none) ∧
      (page1.rides.length = 10 ∧ page2.rides.length = 10 ∧
        page3.rides.length = 5 ∧ page3.hasMore = false ∧
        page1.rides ++ page2.rides ++ page3.rides =
          (matchedRows "u" store25 none).map mapSupabaseRowToRide) := by
  refine ⟨?_, ?_, ?_, ?_, ?_⟩
  · intro r hr
    simp only [getPaginatedRides, List.mem_map] at hr
    obtain ⟨row, hrow, rfl⟩ := hr
    have h2 : row ∈ matchedRows uid store (some c) :=
      List.mem_of_mem_take (List.mem_of_mem_take hrow)
    simp only [matchedRows, List.mem_filter, decide_eq_true_eq] at h2
    exact h2.2
  · show decide (pageSize <
        ((matchedRows uid store (some c)).take (pageSize + 1)).length) =
          true ↔ _
    simp only [decide_eq_true_eq, List.length_take]
    omega
  · intro hm
    have hm2 : decide (pageSize <
        ((matchedRows uid store (some c)).take (pageSize + 1)).length) =
          true := hm
    have hm' := of_decide_eq_true hm2
    set rides :=
      ((matchedRows uid store (some c)).take (pageSize + 1)).take pageSize
      with hridesDef
    have hrl : rides.length = pageSize := by
      rw [hridesDef]
      simp only [List.length_take] at hm' ⊢
      omega
    have hne : rides ≠ [] := by
      intro h
      rw [h] at hrl
      simp at hrl
      omega
    obtain ⟨l, hl⟩ :=
      Option.isSome_iff_exists.mp (List.getLast?_isSome.mpr hne)
    refine ⟨mapSupabaseRowToRide l, ?_, ?_⟩
    · show (rides.map mapSupabaseRowToRide).getLast? = _
      rw [List.getLast?_map, hl]
      rfl
    · have hpos : decide (0 < rides.length) = true :=
        decide_eq_true (by omega)

      show (if (decide (pageSize <
            ((matchedRows uid store (some c)).take (pageSize + 1)).length) &&
              decide (0 < rides.length)) = true then
          Option.map (fun row => row.timestamp) rides.getLast? else none) = _
      rw [hm2, hpos, hl]
      rfl
  · intro hm
    have hm' : (decide (pageSize <
        ((matchedRows uid store (some c)).take (pageSize + 1)).length)) =
          false := hm
    show (if _ && _ then _ else none) = none
    rw [hm']
    rfl
  · exact ⟨by decide, by decide, by decide, by decide, by decide⟩

/-- Witness for C7 at the concrete 25-row store, cursor 91, page size 10. -/
theorem getPaginatedRides_cursor_correct_witness :
    (1 ≤ 10 ∧
      ∀ r ∈ (getPaginatedRides "u" store25 (some 91) 10).rides,
        r.timestamp < 91) :=
  ⟨by decide,
    (getPaginatedRides_cursor_correct "u" store25 91 10 (by decide)).1⟩

/-- Witness for C10 at concrete falsy-valued inputs. -/
theorem falsy_field_coercion_witness :
    (rowToRide (localSaveRow "x" draft_falsy)).maxSpeed = none ∧
      (rowToRide (localSaveRow "x" draft_falsy)).aiSummary = none ∧
      (rowToRide row_falsy).maxSpeed = none ∧
      (rowToRide row_falsy).aiSummary = none ∧
      (mapSupabaseRowToRide srow_falsy).maxSpeed = none ∧
      (mapSupabaseRowToRide srow_falsy).aiSummary = none :=
  ⟨(falsy_field_coercion draft_falsy "x" row_falsy srow_falsy).1 rfl,
    (falsy_field_coercion draft_falsy "x" row_falsy srow_falsy).2.1 rfl,
    (falsy_field_coercion draft_falsy "x" row_falsy srow_falsy).2.2.1 rfl,
    (falsy_field_coercion draft_falsy "x" row_falsy srow_falsy).2.2.2.1 rfl,
    (falsy_field_coercion draft_falsy "x" row_falsy srow_falsy).2.2.2.2.1 rfl,
    (falsy_field_coercion draft_falsy "x" row_falsy srow_falsy).2.2.2.2.2 rfl⟩

end Cyclora
